import Mathlib

/-!
Verification of the news_scraper ingestion pipeline.

Shallow embedding of the Python sources (main.py, scraper.py, db.py, ai.py)
of the micio86dev/news_scraper repository.  Pure pipeline logic is embedded
as Lean functions; outcomes of external library calls (HTTP fetches, the
language-model call, the two external date parsers) enter as explicit
parameters, with the value the surrounding Python code would see on failure
("" for a failed page fetch, `none` for a failed enrichment call or a
raising date parser).
-/

set_option maxRecDepth 40000

namespace NewsPipeline

/-- One entry of `ai_data["translations"]` (ai.py prompt, main.py fallback). -/
structure Translation where
  language : String
  title : String
  summary : String
  content : String
deriving DecidableEq, Repr

/-- The Python value found at `ai_data.get("is_relevant")`: the key may be
absent (`none`), hold a bool, or hold any other object. -/
inductive PyVal where
  | none
  | pybool (b : Bool)
  | other
deriving DecidableEq, Repr

/-- The enrichment record `ai_data` (the JSON the model returns, or the
fallback built in main.py).  `translations` absent is modelled as `[]`,
matching `ai_data.get("translations", [])`. -/
structure AIData where
  is_relevant : PyVal
  summary : String
  category : String
  tags : List String
  language : String
  sentiment : String
  translations : List Translation
deriving DecidableEq, Repr

/-- main.py line 219: `required_langs = ["en", "it", "es", "de", "fr"]`. -/
def required_langs : List String := ["en", "it", "es", "de", "fr"]

/-- main.py line 220: `[t.get("language") for t in ai_data.get("translations", [])]`. -/
def trans_langs (ai : AIData) : List String :=
  ai.translations.map (fun t => t.language)

/-- main.py line 221: `[l for l in required_langs if l not in trans_langs]`. -/
def missing_langs (ai : AIData) : List String :=
  required_langs.filter (fun l => !((trans_langs ai).contains l))

/-- main.py lines 223-227: the article survives the translation gate
(`continue` is not taken) exactly when `missing_langs` is empty. -/
def passesTranslationGate (ai : AIData) : Bool :=
  (missing_langs ai).isEmpty

/-- main.py lines 273-275: `if ai_data.get("is_relevant") is False: continue`.
Python `is False` holds only for the boolean singleton `False`. -/
def skippedAsIrrelevant (ai : AIData) : Bool :=
  ai.is_relevant == PyVal.pybool false

/-- The two gates between enrichment and the save step (main.py 218-275):
an enriched record proceeds to the merge/save code exactly when it passes
the translation gate and is not skipped as irrelevant. -/
def acceptedForPersistence (ai : AIData) : Bool :=
  passesTranslationGate ai && !(skippedAsIrrelevant ai)

/-- main.py lines 177-216: the deterministic fallback record substituted when
`ai.process_article` returns no result. -/
def fallbackAIData (title content_raw : String) : AIData :=
  { is_relevant := PyVal.pybool true
    summary := content_raw.take 200 ++ "..."
    category := "General"
    tags := []
    language := "en"
    sentiment := "neutral"
    translations :=
      [ { language := "it", title := "[IT] " ++ title,
          summary := "Sommario automatico",
          content := "Contenuto tradotto automaticamente." },
        { language := "es", title := "[ES] " ++ title,
          summary := "Resumen automático",
          content := "Contenido traducido automáticamente." },
        { language := "fr", title := "[FR] " ++ title,
          summary := "Résumé automatique",
          content := "Contenu traduit automatiquement." },
        { language := "de", title := "[DE] " ++ title,
          summary := "Automatische Zusammenfassung",
          content := "Automatisch übersetzter Inhalt." },
        { language := "en", title := title,
          summary := content_raw.take 200,
          content := "Original Content" } ] }

/-- main.py lines 170-216: enrichment result with the fallback substitution.
`aiResp = none` models `ai.process_article` returning `None` (transport,
credential or parse failure, ai.py lines 25-27 and 84-86). -/
def enrichWithFallback (aiResp : Option AIData) (title content_raw : String) : AIData :=
  match aiResp with
  | some d => d
  | none => fallbackAIData title content_raw

/-- Observation: the `content` of the first translation entry whose language
is "en" (used to state claims about the English rendering). -/
def enContent (ai : AIData) : Option String :=
  (ai.translations.find? (fun t => t.language == "en")).map (fun t => t.content)

/-- The fields of the normalized article dictionary that the claims use
(scraper.py `_normalize_entry` result). -/
structure ArticleRec where
  title : String
  source_url : String
  content_raw : String
deriving DecidableEq, Repr

/-- Model of the Python substring test `needle in hay` on lists of chars. -/
def charsContain (needle : List Char) : List Char → Bool
  | [] => decide (needle = [])
  | c :: rest =>
    decide ((c :: rest).take needle.length = needle) || charsContain needle rest

/-- Python `needle in hay` for strings. -/
def pyInStr (needle hay : String) : Bool :=
  charsContain needle.data hay.data

/-- main.py lines 147-150: the full-content fetch is attempted only when the
source URL is non-empty (truthy) and the feed body is short or carries the
truncation marker. -/
def fetchGate (a : ArticleRec) : Bool :=
  a.source_url != "" &&
    (decide (a.content_raw.length < 2000) || pyInStr "Read the full story" a.content_raw)

/-- main.py lines 147-163: the content-recovery step.  `fetched` is what
`scraper.fetch_full_content` returned; a fetch or parse error yields ""
(scraper.py lines 43-45), which fails the truthiness test and never
replaces.  The body is replaced only when strictly longer. -/
def recoverContent (a : ArticleRec) (fetched : String) : ArticleRec :=
  if fetchGate a then
    if fetched != "" && decide (a.content_raw.length < fetched.length) then
      { a with content_raw := fetched }
    else a
  else a

/-- Python `str.lower` restricted to the simple one-to-one case. -/
def pyLower (s : String) : String := String.mk (s.data.map Char.toLower)

/-- A character the slug keeps: the class `[a-z0-9]` of main.py line 21. -/
def isSlugChar (c : Char) : Bool :=
  (decide ('a' ≤ c) && decide (c ≤ 'z')) || (decide ('0' ≤ c) && decide (c ≤ '9'))

/-- Replace every maximal run of non-`[a-z0-9]` characters by a single '-':
`re.sub(r"[^a-z0-9]+", "-", slug)`.  The flag records whether the previous
character was part of such a run. -/
def subNonAlnumAux : List Char → Bool → List Char
  | [], _ => []
  | c :: rest, inRun =>
    if isSlugChar c then c :: subNonAlnumAux rest false
    else if inRun then subNonAlnumAux rest true
    else '-' :: subNonAlnumAux rest true

/-- The `re.sub(r"[^a-z0-9]+", "-", s)` call on strings. -/
def pySubNonAlnum (s : String) : String :=
  String.mk (subNonAlnumAux s.data false)

/-- Python `s.strip("-")`: drop leading and trailing '-' characters. -/
def stripDash (s : String) : String :=
  String.mk (((s.data.dropWhile (fun c => c == '-')).reverse.dropWhile
    (fun c => c == '-')).reverse)

/-- main.py lines 18-22: `generate_slug`. -/
def generate_slug (title : String) : String :=
  stripDash (pySubNonAlnum (pyLower title))

/-- The document shape stored in the `news` collection, restricted to the
fields the claims observe (the merge at main.py lines 278-285). -/
structure StoredDoc where
  title : String
  source_url : String
  content_raw : String
  slug : String
  category : String
  translations : List Translation
  views_count : Nat
  clicks_count : Nat
  is_published : Bool
deriving DecidableEq, Repr

/-- main.py lines 278-285: merge the normalized article with the enrichment
record, assign the slug from the title and the default counters. -/
def mergeToDoc (a : ArticleRec) (ai : AIData) : StoredDoc :=
  { title := a.title
    source_url := a.source_url
    content_raw := a.content_raw
    slug := generate_slug a.title
    category := ai.category
    translations := ai.translations
    views_count := 0
    clicks_count := 0
    is_published := true }

/-- db.py lines 102-104: the fallback slug the gateway derives when none was
assigned — same lowercase/collapse/trim computation, suffixed with the
integer wall-clock timestamp. -/
def dbFallbackSlug (title : String) (nowTs : Nat) : String :=
  stripDash (pySubNonAlnum (pyLower title)) ++ "-" ++ toString nowTs

/-- db.py lines 98-104: `save_article` first ensures a slug; an absent or
falsy (empty) slug is replaced by the timestamped fallback slug. -/
def dbEnsureSlug (a : StoredDoc) (nowTs : Nat) : StoredDoc :=
  if a.slug = "" then { a with slug := dbFallbackSlug a.title nowTs } else a

/-- db.py lines 90-92: `is_duplicate` — does a stored document carry this
`source_url`? -/
def is_duplicate (store : List StoredDoc) (url : String) : Bool :=
  store.any (fun d => d.source_url == url)

/-- The number of stored documents holding a given `source_url`. -/
def countUrl (store : List StoredDoc) (url : String) : Nat :=
  (store.filter (fun d => d.source_url == url)).length

/-- MongoDB `insert_one` under the two unique indexes of db.py lines 81-86:
the insert raises a duplicate-key error when an existing document shares the
`source_url` or the `slug`; otherwise the document is appended. -/
def insertOne (store : List StoredDoc) (a : StoredDoc) :
    Except String (List StoredDoc) :=
  if store.any (fun d => d.source_url == a.source_url) then
    Except.error "E11000 duplicate key error collection (source_url)"
  else if store.any (fun d => d.slug == a.slug) then
    Except.error "E11000 duplicate key error collection (slug)"
  else
    Except.ok (store ++ [a])

/-- db.py lines 94-122: `save_article`.  The whole body is wrapped in a
`try/except` that returns `None` on any error, so the function is total:
first component is the inserted id (`none` when not saved), second the
store after the call.  `nowTs` is `int(datetime.now().timestamp())`. -/
def save_article (store : List StoredDoc) (a : StoredDoc) (nowTs : Nat) :
    Option Nat × List StoredDoc :=
  let a := dbEnsureSlug a nowTs
  match insertOne store a with
  | Except.ok store' => (some store.length, store')
  | Except.error _ => (none, store)

/-- main.py line 137: `if db and db.is_duplicate(article["source_url"])`.
In dry-run mode `db` is `None` (main.py lines 72-78), so the duplicate
check is skipped entirely. -/
def duplicateSkip (dry : Bool) (store : List StoredDoc) (url : String) : Bool :=
  !dry && is_duplicate store url

/-- main.py lines 136-275: the accept/reject decision for one in-window
article — duplicate check, content recovery, enrichment (with fallback),
translation gate, relevance gate.  `aiResp` is the enrichment response,
`fetched` the full-content fetch result ("" on failure). -/
def gateDecision (dry : Bool) (store : List StoredDoc) (art : ArticleRec)
    (aiResp : Option AIData) (fetched : String) : Bool :=
  if duplicateSkip dry store art.source_url then false
  else
    let a := recoverContent art fetched
    let ai := enrichWithFallback aiResp a.title a.content_raw
    acceptedForPersistence ai

/-- The document the pipeline would hand to `save_article` for one article. -/
def plannedDoc (art : ArticleRec) (aiResp : Option AIData) (fetched : String) :
    StoredDoc :=
  let a := recoverContent art fetched
  mergeToDoc a (enrichWithFallback aiResp a.title a.content_raw)

/-- main.py lines 136-299 for one article: whether `total_added` is
incremented, and the store afterwards.  A dry run counts every accepted
article without writing; a live run counts only a successful save. -/
def runItem (dry : Bool) (store : List StoredDoc) (art : ArticleRec)
    (aiResp : Option AIData) (fetched : String) (nowTs : Nat) :
    Bool × List StoredDoc :=
  if gateDecision dry store art aiResp fetched then
    if dry then (true, store)
    else
      match save_article store (plannedDoc art aiResp fetched) nowTs with
      | (some _, store') => (true, store')
      | (none, store') => (false, store')
  else (false, store)

/-- A Python `datetime` reduced to its calendar date (the only part the
date-parsing claims observe). -/
structure PyDateTime where
  year : Nat
  month : Nat
  day : Nat
deriving DecidableEq, Repr

/-- Gregorian leap year, as `datetime` implements it. -/
def isLeapYear (y : Nat) : Bool :=
  y % 4 == 0 && (y % 100 != 0 || y % 400 == 0)

/-- Days in a month of the proleptic Gregorian calendar. -/
def daysInMonth (y m : Nat) : Nat :=
  if m == 2 then (if isLeapYear y then 29 else 28)
  else if m == 4 || m == 6 || m == 9 || m == 11 then 30
  else 31

/-- A calendar date `datetime(y, m, d)` accepts (year ≥ 1 per
`datetime.MINYEAR`). -/
def validYmd (y m d : Nat) : Bool :=
  decide (1 ≤ y ∧ 1 ≤ m ∧ m ≤ 12 ∧ 1 ≤ d ∧ d ≤ daysInMonth y m)

/-- Numeric value of an ASCII digit. -/
def digitVal (c : Char) : Nat := c.toNat - '0'.toNat

/-- `datetime.strptime(s, "%Y-%m-%d")`: succeeds exactly on a ten-character
`dddd-dd-dd` string holding a valid calendar date; any other input (an
out-of-range month or day included) raises `ValueError`, modelled `none`. -/
def strptimeYmd (s : String) : Option PyDateTime :=
  match s.data with
  | [y1, y2, y3, y4, h1, m1, m2, h2, d1, d2] =>
    if y1.isDigit && y2.isDigit && y3.isDigit && y4.isDigit && h1 == '-' &&
        m1.isDigit && m2.isDigit && h2 == '-' && d1.isDigit && d2.isDigit then
      let y := ((digitVal y1 * 10 + digitVal y2) * 10 + digitVal y3) * 10 + digitVal y4
      let m := digitVal m1 * 10 + digitVal m2
      let d := digitVal d1 * 10 + digitVal d2
      if validYmd y m d then some { year := y, month := m, day := d } else none
    else none
  | _ => none

/-- Does the pattern `\d{4}-\d{2}-\d{2}` match at the head of the list?  If
so, return the ten matched characters. -/
def matchYmdAt : List Char → Option (List Char)
  | y1 :: y2 :: y3 :: y4 :: h1 :: m1 :: m2 :: h2 :: d1 :: d2 :: _ =>
    if y1.isDigit && y2.isDigit && y3.isDigit && y4.isDigit && h1 == '-' &&
        m1.isDigit && m2.isDigit && h2 == '-' && d1.isDigit && d2.isDigit then
      some [y1, y2, y3, y4, h1, m1, m2, h2, d1, d2]
    else none
  | _ => none

/-- `re.search(r"(\d{4}-\d{2}-\d{2})", s)`: the leftmost match of the fixed-
width pattern, scanning start positions left to right. -/
def searchYmd : List Char → Option String
  | [] => none
  | c :: rest =>
    match matchYmdAt (c :: rest) with
    | some m => some (String.mk m)
    | none => searchYmd rest

/-- Outcome of the date-normalization step of `_normalize_entry`
(scraper.py lines 123-157). -/
inductive DateOutcome where
  /-- `published_at` is a datetime produced by one of the parsers. -/
  | value (t : PyDateTime)
  /-- `published_at` is `datetime.now()` at some point of the step. -/
  | wallClock
  /-- An exception escaped the date-parsing step (it is caught only by the
  entry-level handler, which drops the whole item). -/
  | raised
deriving DecidableEq, Repr

/-- The two external date parsers the step calls.  `none` models the call
raising (`parsedate_to_datetime` on a non-RFC-822 string,
`datetime.fromisoformat` on a non-ISO string). -/
structure ExtDateParsers where
  rfc822 : String → Option PyDateTime
  iso8601 : String → Option PyDateTime

/-- scraper.py lines 123-157: the date-parsing step.  `published_at` starts
as wall-clock time (line 124) and is only reassigned when `date_str` is
non-empty.  The chain is: `parsedate_to_datetime`; on any exception,
`fromisoformat` after replacing every "Z" with "+00:00"; on exception,
regex extraction of a `YYYY-MM-DD` substring fed to `strptime` — but
whatever the regex branch assigns is overwritten by `datetime.now()` on
line 157, and a `strptime` failure is not caught inside the step. -/
def normalizeDate (P : ExtDateParsers) (dateStr : String) : DateOutcome :=
  if dateStr = "" then DateOutcome.wallClock
  else
    match P.rfc822 dateStr with
    | some t => DateOutcome.value t
    | none =>
      match P.iso8601 (dateStr.replace "Z" "+00:00") with
      | some t => DateOutcome.value t
      | none =>
        match searchYmd dateStr.data with
        | some m =>
          match strptimeYmd m with
          | some t =>
            let _assigned := DateOutcome.value t
            -- line 157 unconditionally reassigns `published_at = datetime.now()`
            DateOutcome.wallClock
          | none => DateOutcome.raised
        | none =>
          let _assigned := DateOutcome.wallClock
          -- line 157 reassigns `published_at = datetime.now()` here as well
          DateOutcome.wallClock

/-- Both external parsers raising on every input — the behaviour the real
libraries show on strings that are neither RFC-822 nor ISO-8601. -/
def failParsers : ExtDateParsers :=
  { rfc822 := fun _ => none, iso8601 := fun _ => none }

/-- A translation entry whose only distinguishing field is the language. -/
def mkTrans (l : String) : Translation :=
  { language := l, title := "t", summary := "s", content := "c" }

/-- An enrichment record carrying the five required languages and a sixth
("pt"): its language set differs from the required set, yet no required
code is missing. -/
def sixLangAI : AIData :=
  { is_relevant := PyVal.pybool true, summary := "s", category := "General",
    tags := [], language := "en", sentiment := "neutral",
    translations := ["en", "it", "es", "de", "fr", "pt"].map mkTrans }

/-- A concrete normalized article used to instantiate the theorems. -/
def sampleArt : ArticleRec :=
  { title := "Hello World", source_url := "https://example.com/a",
    content_raw := "short body" }

/-- A concrete stored document (first save of `sampleArt`, enriched by the
fallback). -/
def sampleDocA : StoredDoc :=
  mergeToDoc sampleArt (fallbackAIData "Hello World" "short body")

/-- A second document carrying the same `source_url` as `sampleDocA`. -/
def sampleDocB : StoredDoc :=
  { title := "Hello World again", source_url := "https://example.com/a",
    content_raw := "other body", slug := "hello-world-again",
    category := "General", translations := [], views_count := 0,
    clicks_count := 0, is_published := true }

/-! Helper lemmas shared between the claims. -/

theorem dbEnsureSlug_source_url (a : StoredDoc) (ts : Nat) :
    (dbEnsureSlug a ts).source_url = a.source_url := by
  unfold dbEnsureSlug
  split <;> rfl

theorem recoverContent_source_url (a : ArticleRec) (f : String) :
    (recoverContent a f).source_url = a.source_url := by
  unfold recoverContent
  split
  · split <;> rfl
  · rfl

theorem plannedDoc_source_url (art : ArticleRec) (aiResp : Option AIData)
    (fetched : String) : (plannedDoc art aiResp fetched).source_url = art.source_url := by
  unfold plannedDoc mergeToDoc
  exact recoverContent_source_url art fetched

theorem countUrl_zero_any_false (store : List StoredDoc) (url : String)
    (h0 : countUrl store url = 0) :
    store.any (fun d => d.source_url == url) = false := by
  have hfil : store.filter (fun d => d.source_url == url) = [] :=
    List.length_eq_zero.mp h0
  rw [Bool.eq_false_iff]
  intro hany
  rcases List.any_eq_true.mp hany with ⟨d, hd, hpd⟩
  have hmem : d ∈ store.filter (fun d => d.source_url == url) :=
    List.mem_filter.mpr ⟨hd, hpd⟩
  rw [hfil] at hmem
  exact (List.not_mem_nil d) hmem

/-! The claims. -/

/-- C1 counterexample: the claim says the gate accepts exactly the records
whose translation language set equals `{en, it, es, de, fr}`.  `sixLangAI`
also carries "pt", so its language set differs from the required set, yet it
passes the translation gate and proceeds toward persistence. -/
theorem c1_counterexample :
    passesTranslationGate sixLangAI = true ∧
    acceptedForPersistence sixLangAI = true ∧
    (trans_langs sixLangAI).contains "pt" = true ∧
    required_langs.contains "pt" = false := by
  decide

/-- C1 (amended): an enriched record passes the translation gate and may
proceed toward persistence if and only if every one of the five required
language codes occurs among its translations; extra codes do not cause
rejection, and any record missing a required code is rejected. -/
theorem c1_gate_requires_all (ai : AIData) :
    passesTranslationGate ai = true ↔
      ("en" ∈ trans_langs ai ∧ "it" ∈ trans_langs ai ∧
       "es" ∈ trans_langs ai ∧ "de" ∈ trans_langs ai ∧
       "fr" ∈ trans_langs ai) := by
  by_cases hen : "en" ∈ trans_langs ai <;>
  by_cases hit : "it" ∈ trans_langs ai <;>
  by_cases hes : "es" ∈ trans_langs ai <;>
  by_cases hde : "de" ∈ trans_langs ai <;>
  by_cases hfr : "fr" ∈ trans_langs ai <;>
    simp [passesTranslationGate, missing_langs, required_langs,
      List.filter_cons, List.filter_nil, hen, hit, hes, hde, hfr]

/-- C2 counterexample: with a pre-existing store already holding the
article's source_url, a live run skips the article at the duplicate gate
while a dry run (whose `db` is None, so the gate is skipped) accepts and
counts it — the decisions and the totals differ. -/
theorem c2_counterexample :
    gateDecision true [sampleDocA] sampleArt none "" = true ∧
    gateDecision false [sampleDocA] sampleArt none "" = false ∧
    (runItem true [sampleDocA] sampleArt none "" 1700000000).1 = true ∧
    (runItem false [sampleDocA] sampleArt none "" 1700000000).1 = false := by
  decide

/-- C2 (amended): a dry run and a live run exercise the content-recovery,
enrichment, translation-validation and relevance gates identically and
reach the same accept/reject decision and the same `total_added` increment
for every article whose source_url is not already in the store and whose
insert hits no slug conflict; the duplicate gate, however, is skipped
entirely in dry-run mode (no database handle), so the runs can differ on
articles already stored. -/
theorem c2_dry_live_agree (store : List StoredDoc) (art : ArticleRec)
    (aiResp : Option AIData) (fetched : String) (nowTs : Nat)
    (hdup : is_duplicate store art.source_url = false)
    (hclash : store.any (fun d => d.slug ==
      (dbEnsureSlug (plannedDoc art aiResp fetched) nowTs).slug) = false) :
    gateDecision true store art aiResp fetched
      = gateDecision false store art aiResp fetched ∧
    (runItem true store art aiResp fetched nowTs).1
      = (runItem false store art aiResp fetched nowTs).1 := by
  have hskip_t : duplicateSkip true store art.source_url = false := by
    simp [duplicateSkip]
  have hskip_f : duplicateSkip false store art.source_url = false := by
    simp [duplicateSkip, hdup]
  have hgate : gateDecision true store art aiResp fetched
      = gateDecision false store art aiResp fetched := by
    unfold gateDecision
    rw [hskip_t, hskip_f]
  refine ⟨hgate, ?_⟩
  have hurl : store.any (fun d => d.source_url ==
      (dbEnsureSlug (plannedDoc art aiResp fetched) nowTs).source_url) = false := by
    simp only [dbEnsureSlug_source_url, plannedDoc_source_url]
    exact hdup
  have hins : insertOne store (dbEnsureSlug (plannedDoc art aiResp fetched) nowTs)
      = Except.ok (store ++ [dbEnsureSlug (plannedDoc art aiResp fetched) nowTs]) := by
    simp [insertOne, hurl, hclash]
  have hsave : save_article store (plannedDoc art aiResp fetched) nowTs
      = (some store.length,
         store ++ [dbEnsureSlug (plannedDoc art aiResp fetched) nowTs]) := by
    simp only [save_article, hins]
  simp only [runItem, hgate, hsave]
  split
  · simp
  · rfl

/-- C2 witness: the amended theorem at the empty store and the sample
article. -/
theorem c2_dry_live_agree_witness :
    gateDecision true [] sampleArt none "" = gateDecision false [] sampleArt none "" ∧
    (runItem true [] sampleArt none "" 1700000000).1
      = (runItem false [] sampleArt none "" 1700000000).1 :=
  c2_dry_live_agree [] sampleArt none "" 1700000000 (by decide) (by decide)

/-- C3: the date-parsing step is not total.  On the date string
"2024-13-01" both external parsers raise; the regex finds the substring,
but `strptime` rejects month 13 and its `ValueError` escapes the step,
so the entry-level handler drops the whole item instead of degrading to
wall-clock time. -/
theorem c3_date_parse_raises :
    normalizeDate failParsers "2024-13-01" = DateOutcome.raised := by
  decide

/-- C4 counterexample: on "meeting 2024-05-10 end" both external parsers
fail, the regex step extracts the valid date 2024-05-10, yet the step's
result is wall-clock time, not that date — the regex assignment is
overwritten on scraper.py line 157. -/
theorem c4_counterexample :
    searchYmd "meeting 2024-05-10 end".data = some "2024-05-10" ∧
    strptimeYmd "2024-05-10" = some { year := 2024, month := 5, day := 10 } ∧
    normalizeDate failParsers "meeting 2024-05-10 end" = DateOutcome.wallClock ∧
    DateOutcome.wallClock ≠ DateOutcome.value { year := 2024, month := 5, day := 10 } := by
  decide

/-- C4 (amended): whenever the RFC-822 and ISO-8601 parsers both fail on a
non-empty date string, the step never yields a parsed date value: it yields
wall-clock time (the regex extraction, when it happens, is discarded by the
unconditional reassignment), or raises when `strptime` rejects the extracted
substring.  There is no permissive general-purpose parser step. -/
theorem c4_wallclock_after_parser_failures (P : ExtDateParsers) (s : String)
    (hne : s ≠ "")
    (hrfc : P.rfc822 s = none)
    (hiso : P.iso8601 (s.replace "Z" "+00:00") = none) :
    normalizeDate P s = DateOutcome.wallClock ∨
    normalizeDate P s = DateOutcome.raised := by
  simp only [normalizeDate, if_neg hne, hrfc, hiso]
  cases hm : searchYmd s.data with
  | none => left; rfl
  | some m =>
    cases ht : strptimeYmd m with
    | none => right; simp [ht]
    | some t => left; simp [ht]

/-- C4 witness: the amended theorem applied to the failing parsers and the
date string "nodate". -/
theorem c4_wallclock_witness :
    normalizeDate failParsers "nodate" = DateOutcome.wallClock ∨
    normalizeDate failParsers "nodate" = DateOutcome.raised :=
  c4_wallclock_after_parser_failures failParsers "nodate" (by decide) rfl rfl

/-- C5: content recovery never shortens the canonical body — the recovered
text replaces `content_raw` only when strictly longer (a failed fetch yields
"" and never replaces); otherwise the original is retained, so the body
length after the step is at least the length before it. -/
theorem c5_recovery_never_shortens (a : ArticleRec) (fetched : String) :
    a.content_raw.length ≤ (recoverContent a fetched).content_raw.length ∧
    ((recoverContent a fetched).content_raw = a.content_raw ∨
     ((recoverContent a fetched).content_raw = fetched ∧
      a.content_raw.length < fetched.length)) := by
  unfold recoverContent
  split
  · split
    · next h =>
      simp only [Bool.and_eq_true, decide_eq_true_eq] at h
      exact ⟨Nat.le_of_lt h.2, Or.inr ⟨rfl, h.2⟩⟩
    · exact ⟨Nat.le_refl _, Or.inl rfl⟩
  · exact ⟨Nat.le_refl _, Or.inl rfl⟩

/-- C6: when the enrichment call returns no result, the substituted fallback
record marks the article relevant, derives the summary from the first 200
characters of the raw content followed by "...", uses category "General",
empty tags and neutral sentiment, and carries exactly 5 translation entries
whose language codes cover the required set, so it always passes the
translation validator. -/
theorem c6_fallback_record (title content_raw : String) :
    enrichWithFallback none title content_raw = fallbackAIData title content_raw ∧
    (fallbackAIData title content_raw).is_relevant = PyVal.pybool true ∧
    (fallbackAIData title content_raw).summary = content_raw.take 200 ++ "..." ∧
    (fallbackAIData title content_raw).category = "General" ∧
    (fallbackAIData title content_raw).tags = [] ∧
    (fallbackAIData title content_raw).sentiment = "neutral" ∧
    (fallbackAIData title content_raw).translations.length = 5 ∧
    trans_langs (fallbackAIData title content_raw) = ["it", "es", "fr", "de", "en"] ∧
    passesTranslationGate (fallbackAIData title content_raw) = true := by
  refine ⟨rfl, rfl, rfl, rfl, rfl, rfl, rfl, rfl, ?_⟩
  rfl

/-- C7: persistence is idempotent on a non-empty source_url — after a first
successful save the store holds exactly one record with that URL, the
pre-enrichment duplicate check reports it, and a second save attempt with
the same URL returns "not saved" (None) without raising and leaves the
store unchanged, so exactly one record remains. -/
theorem c7_save_idempotent (store : List StoredDoc) (a b : StoredDoc)
    (ts1 ts2 : Nat)
    (_hurl : a.source_url ≠ "")
    (hb : b.source_url = a.source_url)
    (h0 : countUrl store a.source_url = 0)
    (hslug : ¬ a.slug = "")
    (hclash : store.any (fun d => d.slug == a.slug) = false) :
    (save_article store a ts1).1 = some store.length ∧
    countUrl (save_article store a ts1).2 a.source_url = 1 ∧
    is_duplicate (save_article store a ts1).2 b.source_url = true ∧
    save_article (save_article store a ts1).2 b ts2
      = (none, (save_article store a ts1).2) ∧
    countUrl (save_article (save_article store a ts1).2 b ts2).2 a.source_url = 1 := by
  have hany0 := countUrl_zero_any_false store a.source_url h0
  have ha' : dbEnsureSlug a ts1 = a := by
    unfold dbEnsureSlug
    rw [if_neg hslug]
  have hins1 : insertOne store a = Except.ok (store ++ [a]) := by
    simp [insertOne, hany0, hclash]
  have hsa1 : save_article store a ts1 = (some store.length, store ++ [a]) := by
    simp only [save_article, ha', hins1]
  have hfil : store.filter (fun d => d.source_url == a.source_url) = [] :=
    List.length_eq_zero.mp h0
  have hcount1 : countUrl (store ++ [a]) a.source_url = 1 := by
    simp [countUrl, List.filter_append, hfil]
  have hdup1 : is_duplicate (store ++ [a]) b.source_url = true := by
    rw [hb]
    simp [is_duplicate, List.any_append]
  have hany2 : (store ++ [a]).any
      (fun d => d.source_url == (dbEnsureSlug b ts2).source_url) = true := by
    simp only [dbEnsureSlug_source_url, hb]
    simp [List.any_append]
  have hins2 : insertOne (store ++ [a]) (dbEnsureSlug b ts2)
      = Except.error "E11000 duplicate key error collection (source_url)" := by
    simp [insertOne, hany2]
  have hsa2 : save_article (store ++ [a]) b ts2 = (none, store ++ [a]) := by
    simp only [save_article, hins2]
  rw [hsa1]
  exact ⟨rfl, hcount1, hdup1, hsa2, by rw [hsa2]; exact hcount1⟩

/-- C7 witness: the idempotence theorem at the empty store and the two
sample documents sharing a source_url. -/
theorem c7_save_idempotent_witness :
    save_article (save_article [] sampleDocA 100).2 sampleDocB 200
      = (none, (save_article [] sampleDocA 100).2) :=
  (c7_save_idempotent [] sampleDocA sampleDocB 100 200 (by decide) (by decide)
    (by decide) (by decide) (by decide)).2.2.2.1

/-- C8 counterexample: a record produced by the enrichment-failure fallback
reaches persistence (it passes the translation and relevance gates), yet the
content of its "en" translation entry is the literal placeholder
"Original Content", not an English rendering of the body. -/
theorem c8_counterexample :
    acceptedForPersistence (fallbackAIData "Rust 1.80 released" "Body text") = true ∧
    enContent (fallbackAIData "Rust 1.80 released" "Body text") = some "Original Content" := by
  decide

/-- C8 (amended): for enrichment-produced records the pipeline performs no
check on the translation contents; in particular every record produced by
the enrichment-failure fallback carries the literal placeholder
"Original Content" as its "en" entry's content and still reaches
persistence. -/
theorem c8_fallback_en_is_placeholder (title content_raw : String) :
    enContent (fallbackAIData title content_raw) = some "Original Content" ∧
    acceptedForPersistence (fallbackAIData title content_raw) = true := by
  exact ⟨rfl, rfl⟩

/-- C9 counterexample: the article titled "Hello World" is stored with slug
"hello-world" — the slug assigned by the pipeline contains no digit at all,
so it carries no timestamp suffix. -/
theorem c9_counterexample :
    ((save_article [] (mergeToDoc sampleArt (fallbackAIData "Hello World" "short body"))
        1700000000).2.map (fun d => d.slug)) = ["hello-world"] ∧
    ("hello-world".data.any Char.isDigit) = false := by
  decide

/-- C9 (amended): the stored slug is the lowercased title with runs of
non-alphanumeric characters collapsed to a single "-" and leading/trailing
"-" trimmed; the coarse timestamp suffix is appended only by the persistence
fallback when the assigned slug is empty (an all-non-alphanumeric title) —
ordinarily the stored slug carries no timestamp suffix. -/
theorem c9_slug_derivation (art : ArticleRec) (ai : AIData) (ts : Nat) :
    (mergeToDoc art ai).slug = generate_slug art.title ∧
    generate_slug art.title = stripDash (pySubNonAlnum (pyLower art.title)) ∧
    dbFallbackSlug art.title ts = generate_slug art.title ++ "-" ++ toString ts ∧
    (dbEnsureSlug (mergeToDoc art ai) ts).slug =
      (if generate_slug art.title = "" then dbFallbackSlug art.title ts
       else generate_slug art.title) := by
  refine ⟨rfl, rfl, rfl, ?_⟩
  unfold dbEnsureSlug mergeToDoc
  split <;> simp_all [generate_slug, dbFallbackSlug]

/-- C10: the relevance gate skips an article exactly when the enrichment
result's `is_relevant` is the boolean `False` (Python `is False`); an
absent/None value or any other object is treated as relevant and the
article proceeds. -/
theorem c10_relevance_gate_exact_false (ai : AIData) :
    (skippedAsIrrelevant ai = true ↔ ai.is_relevant = PyVal.pybool false) ∧
    skippedAsIrrelevant { ai with is_relevant := PyVal.none } = false ∧
    skippedAsIrrelevant { ai with is_relevant := PyVal.other } = false ∧
    skippedAsIrrelevant { ai with is_relevant := PyVal.pybool true } = false := by
  refine ⟨?_, rfl, rfl, rfl⟩
  unfold skippedAsIrrelevant
  cases h : ai.is_relevant <;> simp [h]

end NewsPipeline
